import Mathlib

/-!
Verification of the route53 reconciliation module
(`plugins/modules/route53.py`).

The module reconciles one desired DNS resource record set against the
state held in Route53.  We embed the data model (record sets, hosted
zones), the record locator `get_record`, the zone resolver
`get_zone_id_by_name`, the desired-state builder (the
`resource_record_set` construction in `main`), the planner / executor
flow of `main` (the `create` / `delete` / `get` branches), and the
waiter configuration, and prove the stated properties about them.

Conventions of the embedding:
* an optional dictionary key scrubbed by `scrub_none_parameters` (or
  never inserted) is an `Option` field with value `none`; Python dict
  equality then coincides with structural equality of the records;
* Python truthiness of an optional string (`None` and `""` are falsy)
  is `strTruthy`;
* code that raises an uncaught exception is modelled with `Except`.
-/

namespace Route53

/-- Python truthiness of an optional string: `None` and `""` are falsy. -/
def strTruthy : Option String → Bool
  | none => false
  | some s => s != ""

/-- The `AliasTarget` sub-dictionary built in `main`
(`HostedZoneId` / `DNSName` / `EvaluateTargetHealth`). -/
structure AliasTarget where
  hostedZoneId : String
  dnsName : String
  evaluateTargetHealth : Bool
deriving DecidableEq, Repr

/-- A Route53 resource record set, as it appears both in
`list_resource_record_sets` results and in the `resource_record_set`
dictionary constructed in `main`.  An absent dictionary key is `none`;
a `ResourceRecords` list of `{Value: v}` dictionaries is modelled as
the list of the `v` strings. -/
structure ResourceRecordSet where
  name : String
  type : String
  setIdentifier : Option String := none
  weight : Option Int := none
  region : Option String := none
  failover : Option String := none
  ttl : Option Nat := none
  resourceRecords : Option (List String) := none
  healthCheckId : Option String := none
  aliasTarget : Option AliasTarget := none
deriving DecidableEq, Repr

/-- A hosted zone as seen by `get_zone_id_by_name`: the enumeration
entry (`Id` with the `/hostedzone/` prefix already stripped, `Name`,
`Config.PrivateZone`) together with the VPC ids that the extra
`get_hosted_zone` detail call would return. -/
structure HostedZone where
  id : String
  name : String
  privateZone : Bool
  vpcs : List String
deriving DecidableEq, Repr

/-- The loop body test of `get_record`: the candidate is skipped when
`(record_name, record_type) != (Name, Type)`, and skipped when
`record_identifier and record_identifier != record_set.get("SetIdentifier")`. -/
def recordMatches (recordName recordType : String) (recordIdentifier : Option String)
    (rs : ResourceRecordSet) : Bool :=
  (recordName == rs.name && recordType == rs.type) &&
    !(strTruthy recordIdentifier && recordIdentifier != rs.setIdentifier)

/-- `get_record(route53, zone_id, record_name, record_type, record_identifier)`:
first record set in the zone enumeration passing `recordMatches`, else `None`. -/
def get_record (records : List ResourceRecordSet) (recordName recordType : String)
    (recordIdentifier : Option String) : Option ResourceRecordSet :=
  records.find? (recordMatches recordName recordType recordIdentifier)

/-- `get_zone_id_by_name(route53, module, zone_name, want_private, want_vpc_id)`:
scan the full zone enumeration; a zone is a candidate when its private
flag equals `want_private` and its name equals `zone_name`; when a
truthy `want_vpc_id` is given the zone is additionally required to list
that VPC in its `get_hosted_zone` detail, otherwise the scan moves on
to the next zone; first winner is returned, `None` when the
enumeration is exhausted. -/
def get_zone_id_by_name (zones : List HostedZone) (zoneName : String)
    (wantPrivate : Bool) (wantVpcId : Option String) : Option String :=
  match zones with
  | [] => none
  | zone :: rest =>
    if zone.privateZone = wantPrivate ∧ zone.name = zoneName then
      match wantVpcId with
      | some v =>
        if v = "" then some zone.id
        else if v ∈ zone.vpcs then some zone.id
        else get_zone_id_by_name rest zoneName wantPrivate wantVpcId
      | none => some zone.id
    else get_zone_id_by_name rest zoneName wantPrivate wantVpcId

/-- Lines 542-547 of `main`: `zone_id = hosted_zone_id_in or
get_zone_id_by_name(...)`, and a `None` result is the user-facing
failure `Zone ... does not exist in Route53`. -/
def resolveZone (hostedZoneIdIn : Option String) (zones : List HostedZone)
    (zoneIn : String) (wantPrivate : Bool) (wantVpcId : Option String) :
    Except String String :=
  let direct := if strTruthy hostedZoneIdIn then hostedZoneIdIn
    else get_zone_id_by_name zones zoneIn wantPrivate wantVpcId
  match direct with
  | some zid => Except.ok zid
  | none => Except.error ("Zone " ++ zoneIn ++ " does not exist in Route53")

/-- Lines 506-509 of `main`: a non-`None` `vpc_id` forces
`private_zone_in = True`, otherwise the `private_zone` parameter is
used. -/
def effectivePrivateZone (vpcId : Option String) (privateZoneParam : Bool) : Bool :=
  if vpcId.isSome then true else privateZoneParam

/-- The validated module parameters that feed the desired-state
construction in `main` (after the name normalisation of lines
520-524, so `record` is already lower-cased and trailing-dot
qualified).  `ttl` carries the argument-spec default 3600 and is never
absent; `value` is `module.params.get('value') or []`. -/
structure Params where
  record : String
  type : String
  ttl : Nat
  value : List String
  aliasIn : Bool
  aliasHostedZoneId : String
  aliasEvaluateTargetHealth : Bool
  overwrite : Bool
  identifier : Option String
  weight : Option Int
  region : Option String
  failover : Option String
  healthCheck : Option String
deriving DecidableEq, Repr

/-- Lines 520-524 of `main`: append a trailing dot unless the name
already ends in one (`s[-1:] != '.'`). -/
def fqdn (s : String) : String :=
  if s.endsWith "." then s else s ++ "."

/-- Lexicographic comparison of character lists by code point, the
order Python uses to compare strings. -/
def lexLe : List Char → List Char → Bool
  | [], _ => true
  | _ :: _, [] => false
  | a :: as, b :: bs =>
    if a.toNat < b.toNat then true
    else if b.toNat < a.toNat then false
    else lexLe as bs

/-- Python string comparison: code-point lexicographic order. -/
def strLe (a b : String) : Bool :=
  lexLe a.data b.data

/-- The CAA canonicalisation of line 575:
`sorted(resource_record_set['ResourceRecords'], key=itemgetter('Value'))`,
a stable sort of the value strings in Python string order. -/
def caaSort (vs : List String) : List String :=
  List.insertionSort (fun a b => strLe a b = true) vs

/-- Uncaught exceptions of the desired-state construction. -/
inductive BuildError
  /-- line 575 reads `resource_record_set['ResourceRecords']` after the
  alias branch deleted that key (alias together with type CAA). -/
  | keyError
  /-- line 565 reads `value_in[0]` with an empty value list. -/
  | indexError
deriving DecidableEq, Repr

/-- Lines 551-575 of `main`: build the canonical
`resource_record_set` dictionary.  `scrub_none_parameters` drops the
`None` optional fields; `TTL` (defaulted) and `ResourceRecords` (a
list, possibly empty) always survive the scrub.  The alias branch
overwrites with an `AliasTarget` and deletes `ResourceRecords` and
`TTL`; the CAA branch then sorts `ResourceRecords`. -/
def buildResourceRecordSet (p : Params) : Except BuildError ResourceRecordSet :=
  let base : ResourceRecordSet :=
    { name := p.record
      type := p.type
      weight := p.weight
      region := p.region
      failover := p.failover
      ttl := some p.ttl
      resourceRecords := some p.value
      healthCheckId := p.healthCheck }
  let withAlias : Except BuildError ResourceRecordSet :=
    if p.aliasIn then
      match p.value with
      | [] => Except.error BuildError.indexError
      | v :: _ =>
        Except.ok { base with
          aliasTarget := some ⟨p.aliasHostedZoneId, v, p.aliasEvaluateTargetHealth⟩
          resourceRecords := none
          ttl := none }
    else Except.ok base
  match withAlias with
  | Except.error e => Except.error e
  | Except.ok rrs =>
    if p.type = "CAA" then
      match rrs.resourceRecords with
      | none => Except.error BuildError.keyError
      | some vs => Except.ok { rrs with resourceRecords := some (caaSort vs) }
    else Except.ok rrs

/-- The effective command of lines 488-493: `present`/`create` map to
`create`, `absent`/`delete` to `delete`, `get` to `get`. -/
inductive Command
  | create
  | delete
  | get
deriving DecidableEq, Repr

/-- Lines 592-598 of `main`: for a `create` command against an
existing (and, by line 577, different) record the missing `overwrite`
flag is the user-facing conflict failure, otherwise the verb is
`UPSERT`; in every other case the verb is the upper-cased command. -/
def plannedAction (commandIn : Command) (awsRecord : Option ResourceRecordSet)
    (overwrite : Bool) : Except String String :=
  if commandIn = Command.create ∧ awsRecord.isSome then
    if overwrite then Except.ok "UPSERT"
    else Except.error "Record already exists with different value. Set 'overwrite' to replace it"
  else
    Except.ok (match commandIn with
      | Command.create => "CREATE"
      | Command.delete => "DELETE"
      | Command.get => "GET")

/-- A mutating / polling call made against the provider inside the
`not module.check_mode` block (lines 600-623). -/
inductive ProviderCall
  | changeResourceRecordSets (action : String) (rrs : ResourceRecordSet)
  | waitForSync
deriving DecidableEq, Repr

/-- How `main` terminates after the record has been located. -/
inductive ModuleExit
  /-- `module.exit_json(changed=False)` with no diff (lines 578, 590). -/
  | exitedNoDiff (changed : Bool)
  /-- the final `module.exit_json(changed=True, diff=...)` of lines
  633-639; `after` is `none` for the empty `{}` of a delete. -/
  | exited (changed : Bool) (diffBefore : Option ResourceRecordSet)
      (diffAfter : Option ResourceRecordSet)
  /-- `module.fail_json(msg=...)`. -/
  | failed (msg : String)
deriving DecidableEq, Repr

/-- Lines 577-639 of `main` for a `create` or `delete` command, on the
path where every provider call succeeds (provider errors and the
waiter configuration are modelled separately): the no-op exits of
lines 577-578 and 589-590, the conflict/verb decision of lines
592-598, then — unless check mode suppresses them — the change
submission and optional wait of lines 600-623, and the final
changed/diff report of lines 633-639.  Line 637 compares the
upper-cased verb (`CREATE`/`DELETE`/`UPSERT`) against lowercase
`delete`, exactly as the source does: the comparison never matches,
so the `{}` branch of the `after` diff is dead and the report always
carries `resource_record_set`, deletes included.  Returns the
provider calls made together with the module exit. -/
def runChange (commandIn : Command) (checkMode waitIn overwrite : Bool)
    (awsRecord : Option ResourceRecordSet) (resourceRecordSet : ResourceRecordSet) :
    List ProviderCall × ModuleExit :=
  if commandIn = Command.create ∧ awsRecord = some resourceRecordSet then
    ([], ModuleExit.exitedNoDiff false)
  else if commandIn = Command.delete ∧ awsRecord = none then
    ([], ModuleExit.exitedNoDiff false)
  else
    match plannedAction commandIn awsRecord overwrite with
    | Except.error msg => ([], ModuleExit.failed msg)
    | Except.ok action =>
      let calls :=
        if checkMode then []
        else ProviderCall.changeResourceRecordSets action resourceRecordSet ::
          (if waitIn then [ProviderCall.waitForSync] else [])
      (calls,
        ModuleExit.exited true awsRecord
          (if action = "delete" then none else some resourceRecordSet))

/-- Uncaught exceptions of the `get` branch. -/
inductive GetError
  /-- `aws_record.get('values', [])` with `aws_record = None`. -/
  | attributeError
deriving DecidableEq, Repr

/-- Lines 580-587 of `main`: the `get` branch.  For type `NS` the
nameservers are taken as `aws_record.get('values', [])` — provider
record sets never carry a lowercase `values` key, so this is the
default `[]` when the record exists and an `AttributeError` on `None`
when it does not; for every other type they come from
`get_hosted_zone_nameservers` (passed in as `zoneNameservers`).  On
success the module exits with `changed=False`, the located record (or
its absence) and that nameserver list. -/
def runGet (typeIn : String) (awsRecord : Option ResourceRecordSet)
    (zoneNameservers : List String) :
    Except GetError (Bool × Option ResourceRecordSet × List String) :=
  if typeIn = "NS" then
    match awsRecord with
    | none => Except.error GetError.attributeError
    | some r => Except.ok (false, some r, [])
  else
    Except.ok (false, awsRecord, zoneNameservers)

/-- `WAIT_RETRY = 5`: seconds between propagation status polls. -/
def WAIT_RETRY : Nat := 5

/-- Lines 617-623 of `main`: the `WaiterConfig` dictionary passed to
the `resource_record_sets_changed` waiter, keyed exactly as the source
spells the keys: `Delay=WAIT_RETRY` and
`MaxAttemps=wait_timeout_in // WAIT_RETRY`. -/
def buildWaiterConfig (waitTimeoutIn : Nat) : List (String × Nat) :=
  [("Delay", WAIT_RETRY), ("MaxAttemps", waitTimeoutIn / WAIT_RETRY)]

/-- Dictionary lookup on a waiter configuration. -/
def lookupConfig (cfg : List (String × Nat)) (key : String) : Option Nat :=
  (cfg.find? (fun kv => kv.fst == key)).map (fun kv => kv.snd)

/-! ### Concrete inputs used by the witnesses below. -/

/-- The A record of the module documentation example
(`new.foo.com`, 3 values, TTL 7200), in canonical form. -/
def c1Record : ResourceRecordSet :=
  { name := "new.foo.com."
    type := "A"
    ttl := some 7200
    resourceRecords := some ["1.1.1.1", "2.2.2.2", "3.3.3.3"] }

/-- Parameters that build `c1Record`. -/
def c1Params : Params :=
  { record := "new.foo.com."
    type := "A"
    ttl := 7200
    value := ["1.1.1.1", "2.2.2.2", "3.3.3.3"]
    aliasIn := false
    aliasHostedZoneId := ""
    aliasEvaluateTargetHealth := false
    overwrite := false
    identifier := none
    weight := none
    region := none
    failover := none
    healthCheck := none }

/-- A weighted record set carrying a routing identifier. -/
def c4Record : ResourceRecordSet :=
  { name := "www.foo.com."
    type := "A"
    setIdentifier := some "host1"
    ttl := some 30
    resourceRecords := some ["1.1.1.1"] }

/-- CAA parameters of the module documentation example, with an empty
value list to be filled per invocation. -/
def c5Params : Params :=
  { record := "example.com."
    type := "CAA"
    ttl := 3600
    value := []
    aliasIn := false
    aliasHostedZoneId := ""
    aliasEvaluateTargetHealth := false
    overwrite := false
    identifier := none
    weight := none
    region := none
    failover := none
    healthCheck := none }

/-- The canonical CAA record both value orders build. -/
def c5Record : ResourceRecordSet :=
  { name := "example.com."
    type := "CAA"
    ttl := some 3600
    resourceRecords := some ["0 issue \"ca.example.net\"", "0 issuewild \";\""] }

/-- A public zone named `foo.com.`. -/
def c6PublicZone : HostedZone :=
  { id := "Z1PUBLIC"
    name := "foo.com."
    privateZone := false
    vpcs := [] }

/-- A private zone named `foo.com.` associated with `vpc-aaaa`. -/
def c6PrivateZone : HostedZone :=
  { id := "Z2PRIVATE"
    name := "foo.com."
    privateZone := true
    vpcs := ["vpc-aaaa"] }

/-- Alias parameters (an A record aliased to a load balancer). -/
def c7Params : Params :=
  { record := "elb.foo.com."
    type := "A"
    ttl := 3600
    value := ["lb.amazonaws.com."]
    aliasIn := true
    aliasHostedZoneId := "Z35SXDOTRQ7X7K"
    aliasEvaluateTargetHealth := false
    overwrite := false
    identifier := none
    weight := none
    region := none
    failover := none
    healthCheck := none }

/-- The canonical record set `c7Params` builds: alias target only, no
TTL, no value list. -/
def c7Record : ResourceRecordSet :=
  { name := "elb.foo.com."
    type := "A"
    aliasTarget := some ⟨"Z35SXDOTRQ7X7K", "lb.amazonaws.com.", false⟩ }

/-- Nameservers of a zone, as `get_hosted_zone_nameservers` returns them. -/
def c8Nameservers : List String :=
  ["ns-1036.awsdns-00.org.", "ns-516.awsdns-00.net."]

/-- The NS record set at a zone apex. -/
def c8NsRecord : ResourceRecordSet :=
  { name := "foo.com."
    type := "NS"
    ttl := some 172800
    resourceRecords := some ["ns-1036.awsdns-00.org.", "ns-516.awsdns-00.net."] }

/-! ### Helper lemmas: the CAA sort order is total, transitive and
antisymmetric, so sorting is invariant under permutation. -/

theorem char_eq_of_toNat_eq {a b : Char} (h : a.toNat = b.toNat) : a = b :=
  Char.eq_of_val_eq (UInt32.eq_of_toBitVec_eq (BitVec.eq_of_toNat_eq h))

theorem lexLe_total : ∀ as bs, lexLe as bs = true ∨ lexLe bs as = true
  | [], _ => Or.inl rfl
  | _ :: _, [] => Or.inr rfl
  | a :: as, b :: bs => by
    rcases Nat.lt_trichotomy a.toNat b.toNat with h | h | h
    · exact Or.inl (by simp [lexLe, h])
    · rcases lexLe_total as bs with ih | ih
      · exact Or.inl (by simp [lexLe, h, ih])
      · exact Or.inr (by simp [lexLe, h.symm, ih])
    · exact Or.inr (by simp [lexLe, h])

theorem lexLe_trans : ∀ as bs cs, lexLe as bs = true → lexLe bs cs = true → lexLe as cs = true
  | [], _, _, _, _ => rfl
  | _ :: _, [], _, h1, _ => by simp [lexLe] at h1
  | _ :: _, _ :: _, [], _, h2 => by simp [lexLe] at h2
  | a :: as, b :: bs, c :: cs, h1, h2 => by
    simp only [lexLe] at h1 h2 ⊢
    rcases Nat.lt_trichotomy a.toNat b.toNat with hab | hab | hab
    · rcases Nat.lt_trichotomy b.toNat c.toNat with hbc | hbc | hbc
      · simp [Nat.lt_trans hab hbc]
      · simp [hbc ▸ hab]
      · simp [hbc, Nat.lt_asymm hbc] at h2
    · rw [hab] at h1
      simp only [Nat.lt_irrefl, if_false] at h1
      rcases Nat.lt_trichotomy b.toNat c.toNat with hbc | hbc | hbc
      · simp [hab ▸ hbc]
      · rw [hbc] at h2
        simp only [Nat.lt_irrefl, if_false] at h2
        rw [hab, hbc]
        simp [Nat.lt_irrefl, lexLe_trans as bs cs h1 h2]
      · simp [hbc, Nat.lt_asymm hbc] at h2
    · simp [hab, Nat.lt_asymm hab] at h1

theorem lexLe_antisymm : ∀ as bs, lexLe as bs = true → lexLe bs as = true → as = bs
  | [], [], _, _ => rfl
  | [], _ :: _, _, h2 => by simp [lexLe] at h2
  | _ :: _, [], h1, _ => by simp [lexLe] at h1
  | a :: as, b :: bs, h1, h2 => by
    simp only [lexLe] at h1 h2
    rcases Nat.lt_trichotomy a.toNat b.toNat with hab | hab | hab
    · simp [hab, Nat.lt_asymm hab] at h2
    · rw [hab] at h1
      simp only [Nat.lt_irrefl, if_false] at h1
      rw [← hab] at h2
      simp only [Nat.lt_irrefl, if_false] at h2
      rw [char_eq_of_toNat_eq hab, lexLe_antisymm as bs h1 h2]
    · simp [hab, Nat.lt_asymm hab] at h1

theorem strLe_total : ∀ a b : String, strLe a b = true ∨ strLe b a = true :=
  fun a b => lexLe_total a.data b.data

theorem strLe_trans : ∀ a b c : String, strLe a b = true → strLe b c = true → strLe a c = true :=
  fun a b c => lexLe_trans a.data b.data c.data

theorem string_eq_of_data_eq {a b : String} (h : a.data = b.data) : a = b := by
  cases a
  cases b
  exact congrArg String.mk h

theorem strLe_antisymm : ∀ a b : String, strLe a b = true → strLe b a = true → a = b :=
  fun a b h1 h2 => string_eq_of_data_eq (lexLe_antisymm a.data b.data h1 h2)

theorem caaSort_sorted (vs : List String) :
    List.Sorted (fun a b => strLe a b = true) (caaSort vs) :=
  @List.sorted_insertionSort String (fun a b => strLe a b = true) _ ⟨strLe_total⟩ ⟨strLe_trans⟩ vs

theorem caaSort_eq_of_perm {vs ws : List String} (h : vs.Perm ws) : caaSort vs = caaSort ws :=
  @List.eq_of_perm_of_sorted String (fun a b => strLe a b = true) ⟨strLe_antisymm⟩ _ _
    (((List.perm_insertionSort _ vs).trans h).trans (List.perm_insertionSort _ ws).symm)
    (caaSort_sorted vs) (caaSort_sorted ws)

/-! ### The claims. -/

/-- C1: for every valid desired record set, when the record located in
the zone is structurally equal to the canonical form the builder
produced, an apply-intent run (`state` present/create, line 577) exits
with `changed=False` and makes no provider call: the plan is a NoOp. -/
theorem apply_idempotent_noop (p : Params) (recs : List ResourceRecordSet)
    (d : ResourceRecordSet) (cm w : Bool)
    (_hbuild : buildResourceRecordSet p = Except.ok d)
    (hrec : get_record recs p.record p.type p.identifier = some d) :
    runChange Command.create cm w p.overwrite
      (get_record recs p.record p.type p.identifier) d = ([], ModuleExit.exitedNoDiff false) := by
  rw [hrec]
  simp [runChange]

/-- Witness for C1 at the documentation example record. -/
theorem apply_idempotent_noop_witness :
    buildResourceRecordSet c1Params = Except.ok c1Record ∧
    get_record [c1Record] c1Params.record c1Params.type c1Params.identifier = some c1Record ∧
    runChange Command.create false false c1Params.overwrite
      (get_record [c1Record] c1Params.record c1Params.type c1Params.identifier) c1Record =
      ([], ModuleExit.exitedNoDiff false) :=
  ⟨rfl, by decide,
    apply_idempotent_noop c1Params [c1Record] c1Record false false rfl (by decide)⟩

/-- C2: when a current record exists and differs from the canonical
desired record, an apply-intent run without `overwrite` fails with the
conflict message and submits nothing (lines 593-595), and with
`overwrite` the one submitted mutation verb is `UPSERT` (line 596). -/
theorem apply_conflict_or_upsert (w : Bool) (c d : ResourceRecordSet) (hne : c ≠ d) :
    (∀ cm, runChange Command.create cm w false (some c) d =
      ([], ModuleExit.failed
        "Record already exists with different value. Set 'overwrite' to replace it")) ∧
    runChange Command.create false w true (some c) d =
      (ProviderCall.changeResourceRecordSets "UPSERT" d ::
        (if w then [ProviderCall.waitForSync] else []),
       ModuleExit.exited true (some c) (some d)) := by
  constructor
  · intro cm
    simp [runChange, plannedAction, hne]
  · simp [runChange, plannedAction, hne]

/-- Witness for C2: the located record differs from the desired one in
its TTL. -/
theorem apply_conflict_or_upsert_witness :
    (c1Record ≠ { c1Record with ttl := some 300 }) ∧
    runChange Command.create false false false (some c1Record) { c1Record with ttl := some 300 } =
      ([], ModuleExit.failed
        "Record already exists with different value. Set 'overwrite' to replace it") ∧
    runChange Command.create false false true (some c1Record) { c1Record with ttl := some 300 } =
      ([ProviderCall.changeResourceRecordSets "UPSERT" { c1Record with ttl := some 300 }],
       ModuleExit.exited true (some c1Record) (some { c1Record with ttl := some 300 })) := by
  have h := apply_conflict_or_upsert false c1Record { c1Record with ttl := some 300 } (by decide)
  exact ⟨by decide, h.1 false, h.2⟩

/-- C3: the waiter configuration built for `wait_timeout=10` (line
617-622) puts the computed attempt bound `10 // 5 = 2` under the
misspelled key `MaxAttemps`; the key the waiter actually reads,
`MaxAttempts`, is absent, so the caller's timeout never reaches the
waiter and the wait does not stop after ~10 seconds. -/
theorem waiter_config_misspelled_attempts_key :
    lookupConfig (buildWaiterConfig 10) "MaxAttempts" = none ∧
    lookupConfig (buildWaiterConfig 10) "MaxAttemps" = some 2 ∧
    lookupConfig (buildWaiterConfig 10) "Delay" = some 5 := by decide

/-- C4 counterexample: matching is not symmetric in the routing
identifier — a record set carrying `SetIdentifier` is returned for a
query that supplies no identifier. -/
theorem get_record_no_identifier_matches_identified :
    c4Record.setIdentifier = some "host1" ∧
    get_record [c4Record] "www.foo.com." "A" none = some c4Record := by decide

/-- C4 amended: a located record always matches the queried name and
type exactly; a query that supplies a (nonempty) routing identifier
only ever returns a record whose identifier equals it (a record
without one never matches); but a query that supplies no identifier
matches on name and type alone, regardless of the candidate's
identifier. -/
theorem get_record_matching_rules (recs : List ResourceRecordSet) (n t i : String)
    (rs : ResourceRecordSet) (hi : i ≠ "") :
    (get_record recs n t (some i) = some rs →
      n = rs.name ∧ t = rs.type ∧ rs.setIdentifier = some i) ∧
    (get_record recs n t none = some rs → n = rs.name ∧ t = rs.type) := by
  constructor
  · intro h
    have hp := List.find?_some h
    simp only [recordMatches, strTruthy, Bool.and_eq_true, beq_iff_eq] at hp
    obtain ⟨⟨hn, ht⟩, hid⟩ := hp
    refine ⟨hn, ht, ?_⟩
    have hi2 : (i != "") = true := by simpa [bne] using hi
    simp only [hi2, Bool.true_and, Bool.not_eq_true'] at hid
    have heq := bne_eq_false_iff_eq.mp hid
    exact heq.symm
  · intro h
    have hp := List.find?_some h
    simp only [recordMatches, strTruthy, Bool.and_eq_true, beq_iff_eq] at hp
    exact ⟨hp.1.1, hp.1.2⟩

/-- Witness for C4 amended, at the weighted record. -/
theorem get_record_matching_rules_witness :
    ("host1" ≠ "") ∧
    (get_record [c4Record] "www.foo.com." "A" (some "host1") = some c4Record →
      "www.foo.com." = c4Record.name ∧ "A" = c4Record.type ∧
        c4Record.setIdentifier = some "host1") := by
  have h := get_record_matching_rules [c4Record] "www.foo.com." "A" "host1" c4Record (by decide)
  exact ⟨by decide, h.1⟩

/-- C5: for a CAA record (no alias), any permutation of the value
list builds the same canonical record set (line 575 sorts the
values), and applying against a current record equal to that
canonical form is a NoOp. -/
theorem caa_order_insensitive (p : Params) (vs ws : List String) (d : ResourceRecordSet)
    (hperm : vs.Perm ws) (htype : p.type = "CAA") (halias : p.aliasIn = false)
    (cm w ow : Bool)
    (hbuild : buildResourceRecordSet { p with value := vs } = Except.ok d) :
    buildResourceRecordSet { p with value := ws } = Except.ok d ∧
    runChange Command.create cm w ow (some d) d = ([], ModuleExit.exitedNoDiff false) := by
  refine ⟨?_, by simp [runChange]⟩
  simp only [buildResourceRecordSet, halias, htype] at hbuild ⊢
  simp only [Bool.false_eq_true, if_false, if_pos] at hbuild ⊢
  rw [caaSort_eq_of_perm (List.Perm.symm hperm)]
  exact hbuild

/-- Witness for C5 at the documentation CAA example, in both orders. -/
theorem caa_order_insensitive_witness :
    (["0 issuewild \";\"", "0 issue \"ca.example.net\""].Perm
      ["0 issue \"ca.example.net\"", "0 issuewild \";\""]) ∧
    buildResourceRecordSet
        { c5Params with value := ["0 issuewild \";\"", "0 issue \"ca.example.net\""] } =
      Except.ok c5Record ∧
    buildResourceRecordSet
        { c5Params with value := ["0 issue \"ca.example.net\"", "0 issuewild \";\""] } =
      Except.ok c5Record ∧
    runChange Command.create false false false (some c5Record) c5Record =
      ([], ModuleExit.exitedNoDiff false) := by
  have h := caa_order_insensitive c5Params
    ["0 issuewild \";\"", "0 issue \"ca.example.net\""]
    ["0 issue \"ca.example.net\"", "0 issuewild \";\""] c5Record
    (by decide) rfl rfl false false false rfl
  exact ⟨by decide, rfl, h.1, h.2⟩

/-- C6 helper: when no private zone lists the wanted VPC, the scan of
`get_zone_id_by_name` with `want_private=True` drains the whole
enumeration and returns `None` — public zones of the same name never
match because their private flag differs. -/
theorem get_zone_id_by_name_private_vpc_none (zones : List HostedZone) (zoneName v : String)
    (hv : v ≠ "") (hnone : ∀ z ∈ zones, z.privateZone = true → v ∉ z.vpcs) :
    get_zone_id_by_name zones zoneName true (some v) = none := by
  induction zones with
  | nil => rfl
  | cons z rest ih =>
    simp only [get_zone_id_by_name]
    by_cases hz : z.privateZone = true ∧ z.name = zoneName
    · rw [if_pos hz, if_neg hv, if_neg (hnone z (List.mem_cons_self z rest) hz.1)]
      exact ih (fun z1 hz1 => hnone z1 (List.mem_cons_of_mem _ hz1))
    · rw [if_neg hz]
      exact ih (fun z1 hz1 => hnone z1 (List.mem_cons_of_mem _ hz1))

/-- C6: resolving a zone with private visibility and a VPC constraint
that appears in no private zone's associated-network list fails with
the `Zone ... does not exist in Route53` error after the full scan,
even when a public zone of the same name exists. -/
theorem private_vpc_zone_not_found (zones : List HostedZone) (zoneName v : String)
    (hv : v ≠ "")
    (hnone : ∀ z ∈ zones, z.privateZone = true → v ∉ z.vpcs)
    (_hpub : ∃ z ∈ zones, z.privateZone = false ∧ z.name = zoneName) :
    resolveZone none zones zoneName true (some v) =
      Except.error ("Zone " ++ zoneName ++ " does not exist in Route53") := by
  simp [resolveZone, strTruthy,
    get_zone_id_by_name_private_vpc_none zones zoneName v hv hnone]

/-- Witness for C6: a public and a private `foo.com.` zone, querying a
VPC only absent from the private zone's list. -/
theorem private_vpc_zone_not_found_witness :
    ("vpc-bbbb" ≠ "") ∧
    (∀ z ∈ [c6PublicZone, c6PrivateZone], z.privateZone = true → "vpc-bbbb" ∉ z.vpcs) ∧
    (∃ z ∈ [c6PublicZone, c6PrivateZone], z.privateZone = false ∧ z.name = "foo.com.") ∧
    resolveZone none [c6PublicZone, c6PrivateZone] "foo.com." true (some "vpc-bbbb") =
      Except.error "Zone foo.com. does not exist in Route53" := by
  have h := private_vpc_zone_not_found [c6PublicZone, c6PrivateZone] "foo.com." "vpc-bbbb"
    (by decide) (by decide) ⟨c6PublicZone, by decide⟩
  exact ⟨by decide, by decide, ⟨c6PublicZone, by decide⟩, h⟩

/-- C7: every record set the builder returns satisfies the structural
invariant — an alias target excludes both `TTL` and the value list
(lines 562-571 delete them), and a record without an alias target
always carries both (the defaulted `TTL` and the `ResourceRecords`
list survive `scrub_none_parameters`). -/
theorem builder_alias_value_exclusion (p : Params) (r : ResourceRecordSet)
    (h : buildResourceRecordSet p = Except.ok r) :
    (r.aliasTarget.isSome = true → r.ttl = none ∧ r.resourceRecords = none) ∧
    (r.aliasTarget = none → (∃ n, r.ttl = some n) ∧ ∃ vs, r.resourceRecords = some vs) := by
  by_cases ha : p.aliasIn
  · cases hv : p.value with
    | nil => simp [buildResourceRecordSet, ha, hv] at h
    | cons v rest =>
      by_cases ht : p.type = "CAA"
      · simp [buildResourceRecordSet, ha, hv, ht] at h
      · simp [buildResourceRecordSet, ha, hv, ht] at h
        rw [← h]
        simp
  · by_cases ht : p.type = "CAA"
    · simp [buildResourceRecordSet, ha, ht] at h
      rw [← h]
      simp
    · simp [buildResourceRecordSet, ha, ht] at h
      rw [← h]
      simp

/-- Witness for C7 at the alias example. -/
theorem builder_alias_value_exclusion_witness :
    buildResourceRecordSet c7Params = Except.ok c7Record ∧
    (c7Record.aliasTarget.isSome = true →
      c7Record.ttl = none ∧ c7Record.resourceRecords = none) :=
  ⟨rfl, (builder_alias_value_exclusion c7Params c7Record rfl).1⟩

/-- C8: the `get` branch (lines 580-587) for type `NS` reads
`aws_record.get('values', [])`: with no matching record this is an
uncaught `AttributeError` on `None` instead of the promised
`changed=false` success, and with a matching record it returns `[]`
(provider record sets have no lowercase `values` key) instead of the
zone's nameserver list; other types return the record (or its
absence) and the zone's nameservers. -/
theorem get_ns_branch_diverges :
    runGet "NS" none c8Nameservers = Except.error GetError.attributeError ∧
    runGet "NS" (some c8NsRecord) c8Nameservers = Except.ok (false, some c8NsRecord, []) ∧
    runGet "A" none c8Nameservers = Except.ok (false, none, c8Nameservers) :=
  ⟨rfl, rfl, rfl⟩

/-- C9 helper: with `want_private=True`, any zone id
`get_zone_id_by_name` returns belongs to a private zone of the
enumeration. -/
theorem get_zone_id_by_name_private_only (zones : List HostedZone) (n : String)
    (wantVpc : Option String) (zid : String)
    (h : get_zone_id_by_name zones n true wantVpc = some zid) :
    ∃ z ∈ zones, z.privateZone = true ∧ zid = z.id := by
  induction zones with
  | nil => simp [get_zone_id_by_name] at h
  | cons z rest ih =>
    cases wantVpc with
    | none =>
      simp only [get_zone_id_by_name] at h
      by_cases hz : z.privateZone = true ∧ z.name = n
      · rw [if_pos hz] at h
        exact ⟨z, List.mem_cons_self z rest, hz.1, (Option.some.inj h).symm⟩
      · rw [if_neg hz] at h
        obtain ⟨z1, hz1, hp, he⟩ := ih h
        exact ⟨z1, List.mem_cons_of_mem _ hz1, hp, he⟩
    | some v =>
      simp only [get_zone_id_by_name] at h
      by_cases hz : z.privateZone = true ∧ z.name = n
      · rw [if_pos hz] at h
        by_cases hv : v = ""
        · rw [if_pos hv] at h
          exact ⟨z, List.mem_cons_self z rest, hz.1, (Option.some.inj h).symm⟩
        · rw [if_neg hv] at h
          by_cases hm : v ∈ z.vpcs
          · rw [if_pos hm] at h
            exact ⟨z, List.mem_cons_self z rest, hz.1, (Option.some.inj h).symm⟩
          · rw [if_neg hm] at h
            obtain ⟨z1, hz1, hp, he⟩ := ih h
            exact ⟨z1, List.mem_cons_of_mem _ hz1, hp, he⟩
      · rw [if_neg hz] at h
        obtain ⟨z1, hz1, hp, he⟩ := ih h
        exact ⟨z1, List.mem_cons_of_mem _ hz1, hp, he⟩

/-- C9: supplying `vpc_id` forces the private-zone flag to true (lines
506-509) even when `private_zone` is false, so zone resolution only
ever selects private zones. -/
theorem vpc_id_forces_private_zone (v : String) (pz : Bool) (zones : List HostedZone)
    (n zid : String)
    (h : get_zone_id_by_name zones n (effectivePrivateZone (some v) pz) (some v) = some zid) :
    effectivePrivateZone (some v) pz = true ∧
    ∃ z ∈ zones, z.privateZone = true ∧ zid = z.id :=
  ⟨rfl, get_zone_id_by_name_private_only zones n (some v) zid h⟩

/-- Witness for C9: `private_zone=false` with a `vpc_id` still
resolves the private zone. -/
theorem vpc_id_forces_private_zone_witness :
    get_zone_id_by_name [c6PublicZone, c6PrivateZone] "foo.com."
      (effectivePrivateZone (some "vpc-aaaa") false) (some "vpc-aaaa") = some "Z2PRIVATE" ∧
    effectivePrivateZone (some "vpc-aaaa") false = true ∧
    (∃ z ∈ [c6PublicZone, c6PrivateZone], z.privateZone = true ∧ "Z2PRIVATE" = z.id) := by
  have h := vpc_id_forces_private_zone "vpc-aaaa" false [c6PublicZone, c6PrivateZone]
    "foo.com." "Z2PRIVATE" (by decide)
  exact ⟨by decide, h.1, h.2⟩

/-- C10 helper: the verbs `plannedAction` produces are the upper-cased
`UPSERT`/`CREATE`/`DELETE` (or the unreachable `GET`), never lowercase
`delete`, so the dead `{}` branch of line 637 is indeed never taken. -/
theorem plannedAction_ne_delete (cmd : Command) (current : Option ResourceRecordSet)
    (ow : Bool) (a : String) (h : plannedAction cmd current ow = Except.ok a) :
    a ≠ "delete" := by
  unfold plannedAction at h
  split at h
  · split at h
    · injection h with h1
      subst h1
      decide
    · exact absurd h (by simp)
  · injection h with h1
    subst h1
    cases cmd <;> decide

/-- C10: in check mode an apply or remove run that reaches the
execution stage makes no provider call at all (lines 600-631 are
skipped), yet exits with the same `changed=True` and before/after
diff a real (successful) run reports — `before` the located record,
`after` the desired record set (line 637's comparison of the
upper-cased verb with lowercase `delete` never matches, so `after` is
the desired record even for deletes). -/
theorem check_mode_no_provider_calls (cmd : Command) (w ow : Bool)
    (current : Option ResourceRecordSet) (d : ResourceRecordSet) (a : String)
    (_hcmd : cmd ≠ Command.get)
    (hplan : plannedAction cmd current ow = Except.ok a)
    (h1 : ¬(cmd = Command.create ∧ current = some d))
    (h2 : ¬(cmd = Command.delete ∧ current = none)) :
    (runChange cmd true w ow current d).fst = [] ∧
    (runChange cmd true w ow current d).snd = (runChange cmd false w ow current d).snd ∧
    (runChange cmd true w ow current d).snd = ModuleExit.exited true current (some d) := by
  have ha := plannedAction_ne_delete cmd current ow a hplan
  simp [runChange, h1, h2, hplan, ha]

/-- Witness for C10 at a plain create with wait requested. -/
theorem check_mode_no_provider_calls_witness :
    (Command.create ≠ Command.get) ∧
    plannedAction Command.create none false = Except.ok "CREATE" ∧
    ¬(Command.create = Command.create ∧ (none : Option ResourceRecordSet) = some c1Record) ∧
    ¬(Command.create = Command.delete ∧ (none : Option ResourceRecordSet) = none) ∧
    (runChange Command.create true true false none c1Record).fst = [] ∧
    (runChange Command.create true true false none c1Record).snd =
      (runChange Command.create false true false none c1Record).snd := by
  have h := check_mode_no_provider_calls Command.create true false none c1Record "CREATE"
    (by decide) rfl (by simp) (by simp)
  exact ⟨by decide, rfl, by simp, by simp, h.1, h.2.1⟩

end Route53
